import Mathlib

/-!
Verification of the slide transition & preload engine of `simple-slideshow.py`.

The Python source is shallowly embedded below.  Pure helpers become Lean
functions; the mutable `Slideshow` object becomes explicit state passing on a
`SlideshowState` record.  The background preload thread is modelled twice:

* a sequential model used for the main-loop claims, in which a spawned thread
  body runs to completion at spawn time (one legal schedule, and the one the
  5-second `join` in `_get_preloaded` makes typical); and
* an interleaved model (`PreloadSys`) in which spawned thread bodies are kept
  pending and may execute at any later point, used for the claims about
  supersession and about which component mutates the catalog.

Machine floats (`time.time()`, `math.cos`) do not enter any claim's integer
content; where the eased progress value is needed it is abstracted as an exact
rational sample of the float computed by `_update`.
-/

/-- A file path, split as Python's `pathlib` exposes it: `stem` is the file
name without its final extension, `suffix` is the extension including the dot.
`name` below is the full file name `stem ++ suffix`. -/
structure FilePath where
  stem : String
  suffix : String
deriving DecidableEq, Repr

/-- Python `path.name`: the final path component, `stem` plus `suffix`. -/
def FilePath.name (p : FilePath) : String :=
  p.stem ++ p.suffix

/-- Python `str.startswith(c)` for a one-character prefix: whether the first
character of the string is `c`. -/
def py_startswith (pre : Char) (s : String) : Bool :=
  match s.data with
  | [] => false
  | c :: _ => c == pre

/-- Python `str.lstrip("$")`: drop every leading `$` character.  Python
strings are sequences of characters, embedded here via the character list of a
Lean `String`. -/
def py_lstrip_dollar (s : String) : String :=
  String.mk (s.data.dropWhile (fun c => c == '$'))

/-- Python `str.replace(pat, rep)` for a one-character pattern and replacement:
replace every occurrence of `pat` by `rep`. -/
def py_replace_char (pat rep : Char) (s : String) : String :=
  String.mk (s.data.map (fun c => if c == pat then rep else c))

/-- Embedding of `caption_from_path` (src lines 39-42):
`stem = path.stem.lstrip("$"); return stem.replace("_", " ").replace("-", " ")`. -/
def caption_from_path (p : FilePath) : String :=
  py_replace_char '-' ' ' (py_replace_char '_' ' ' (py_lstrip_dollar p.stem))

/-- A rendered slide as the engine sees it: the source path, the derived
caption text, and the optional caption bar (`None` unless the file name starts
with `$`).  The pixel layers themselves (background / foreground surfaces) are
pure functions of `path` and carry no further state, so they are represented
by the path. -/
structure Slide where
  path : FilePath
  caption : String
  captionSurf : Option String
deriving DecidableEq, Repr

/-- Embedding of `Slide.__init__` (src lines 112-138) on the successful branch:
the caption is `caption_from_path(path)`, and the caption bar is rendered
exactly when `path.name.startswith("$")`. -/
def Slide.init (p : FilePath) : Slide :=
  { path := p
    caption := caption_from_path p
    captionSurf :=
      if py_startswith '$' p.name then some (caption_from_path p) else none }

/-- A composable layer handed to the presentation surface by `_draw_slide`. -/
inductive Layer where
  | background (p : FilePath)
  | foreground (p : FilePath)
  | caption (text : String)
deriving DecidableEq, Repr

/-- Whether a layer is a caption bar. -/
def Layer.isCaption : Layer → Bool
  | .caption _ => true
  | _ => false

/-- Embedding of `_draw_slide` (src lines 340-360): blit the background, the
fitted foreground, and — only when `caption_surf is not None` — the caption
bar, all at the single alpha applied to the temporary surface. -/
def draw_slide (slide : Slide) (alpha : Int) : List (Layer × Int) :=
  [(Layer.background slide.path, alpha), (Layer.foreground slide.path, alpha)] ++
    (match slide.captionSurf with
     | some t => [(Layer.caption t, alpha)]
     | none => [])

/-- Python `str.lower()`, character by character. -/
def py_lower (s : String) : String :=
  String.mk (s.data.map Char.toLower)

/-- Embedding of `scan_photos` (src lines 26-36).  The filesystem is passed in
as data: whether the directory exists and the list of its entries.  `sys.exit(1)`
becomes `Except.error 1`. -/
def scan_photos (dir_exists : Bool) (entries : List FilePath)
    (supported_ext : List String) : Except Nat (List FilePath) :=
  if dir_exists = false then
    Except.error 1
  else
    let paths := entries.filter (fun p => supported_ext.contains (py_lower p.suffix))
    if paths = [] then
      Except.error 1
    else
      Except.ok (paths.mergeSort (fun a b => decide (a.name ≤ b.name)))

/-- The mutable state of the `Slideshow` object that the claims mention.
`preloaded` is the preload slot `self._preloaded`; in the sequential model a
spawned preload thread has already run, so no separate thread handle is kept. -/
structure SlideshowState where
  paths : List FilePath
  index : Nat
  paused : Bool
  running : Bool
  transitioning : Bool
  current_slide : Option Slide
  next_slide : Option Slide
  alpha : Int
  preloaded : Option Slide
deriving DecidableEq, Repr

/-- Embedding of `_load_slide` (src lines 190-197) on the catalog alone:
read `paths[idx]`; on decode success return the slide and the unchanged
catalog; on decode failure (`OSError`) pop the entry and return `None`.
Decode success is the oracle `ok`.  Callers in the source always guard
`idx < len(paths)`, so the out-of-range branch (a Python `IndexError`) is
returned as a no-op pair. -/
def load_slide (ok : FilePath → Bool) (paths : List FilePath) (idx : Nat) :
    Option Slide × List FilePath :=
  match paths[idx]? with
  | none => (none, paths)
  | some p => if ok p then (some (Slide.init p), paths) else (none, paths.eraseIdx idx)

/-- State-level `_load_slide`: the pop acts on `self.paths`. -/
def load_slideS (ok : FilePath → Bool) (s : SlideshowState) (idx : Nat) :
    Option Slide × SlideshowState :=
  match load_slide ok s.paths idx with
  | (r, ps) => (r, { s with paths := ps })

/-- Embedding of `_start_preload` (src lines 199-205) in the sequential model:
the spawned thread body `if idx < len(self.paths): self._preloaded =
self._load_slide(idx)` runs to completion at spawn time. -/
def start_preload (ok : FilePath → Bool) (s : SlideshowState) (idx : Nat) :
    SlideshowState :=
  if idx < s.paths.length then
    match load_slideS ok s idx with
    | (r, s1) => { s1 with preloaded := r }
  else s

/-- Embedding of `_get_preloaded` (src lines 207-215).  The `join(timeout=5)`
is a no-op in the sequential model.  Note the source returns `self._preloaded`
whenever it is not `None`, with no comparison against `expected_idx`, and does
not clear the slot; only when the slot is empty does it fall back to a
synchronous `_load_slide(expected_idx)`. -/
def get_preloaded (ok : FilePath → Bool) (s : SlideshowState) (expected_idx : Nat) :
    Option Slide × SlideshowState :=
  match s.preloaded with
  | some sl => (some sl, s)
  | none =>
    if expected_idx < s.paths.length then load_slideS ok s expected_idx
    else (none, s)

/-- Embedding of `_next_index` (src lines 184-185) at the default step 1:
`(self.index + 1) % len(self.paths)`.  Meaningful only for a non-empty
catalog (Python raises `ZeroDivisionError` on an empty one). -/
def next_index (s : SlideshowState) : Nat :=
  (s.index + 1) % s.paths.length

/-- Embedding of `_prev_index` (src lines 187-188): `(self.index - 1) %
len(self.paths)` with Python's nonnegative modulo, written over `Nat` as
`(index + (len - 1)) % len`; the two agree for every non-empty catalog. -/
def prev_index (s : SlideshowState) : Nat :=
  (s.index + (s.paths.length - 1)) % s.paths.length

/-- Python `list.index(x)` (used at src line 251): position of the first
occurrence, or an exception — modelled as `none` — when absent. -/
def py_list_index (x : FilePath) : List FilePath → Option Nat
  | [] => none
  | p :: rest => if p = x then some 0 else (py_list_index x rest).map (· + 1)

/-- Embedding of `_begin_transition` (src lines 217-244), with the recursion
on a failed load run on fuel; every recursive call in the source follows a pop,
so `len(paths) + 1` units of fuel (supplied by `begin_transition` below) always
suffice and the fuel-exhausted branch is unreachable from it. -/
def beginGo (ok : FilePath → Bool) : Nat → SlideshowState → Nat → SlideshowState
  | 0, s, _ => s
  | fuel + 1, s, target =>
    if s.transitioning then s
    else if s.paths.length = 0 then { s with running := false }
    else
      let next_idx := target % s.paths.length
      match (if next_idx = next_index s then get_preloaded ok s next_idx
             else load_slideS ok s next_idx) with
      | (none, s1) => beginGo ok fuel s1 next_idx
      | (some sl, s1) =>
        start_preload ok
          { s1 with
            next_slide := some sl
            transitioning := true
            alpha := 255
            preloaded := none }
          ((next_idx + 1) % s1.paths.length)

/-- Embedding of `_begin_transition` at its call sites. -/
def begin_transition (ok : FilePath → Bool) (s : SlideshowState) (target : Nat) :
    SlideshowState :=
  beginGo ok (s.paths.length + 1) s target

/-- Embedding of `_finish_transition` (src lines 246-252).  When
`self.next_slide` is `None` the assignment chain dereferences
`self.current_slide.path` on `None` (an `AttributeError`); when the committed
path is no longer in the catalog `self.paths.index` raises `ValueError`.
Both exceptional exits are modelled as `none`. -/
def finish_transition (s : SlideshowState) : Option SlideshowState :=
  match s.next_slide with
  | none => none
  | some sl =>
    match py_list_index sl.path s.paths with
    | none => none
    | some i =>
      some { s with
        current_slide := some sl
        next_slide := none
        transitioning := false
        alpha := 255
        index := i }

/-- Embedding of `_advance` (src lines 289-294): while transitioning, first
force `_finish_transition`, then begin a transition toward the next index for
`direction > 0` and the previous index otherwise.  A crash inside
`_finish_transition` propagates as `none`. -/
def advance (ok : FilePath → Bool) (s : SlideshowState) (direction : Int) :
    Option SlideshowState :=
  match (if s.transitioning then finish_transition s else some s) with
  | none => none
  | some s1 =>
    let target := if direction > 0 then next_index s1 else prev_index s1
    some (begin_transition ok s1 target)

/-- Python `int()` on a rational sample: truncation toward zero. -/
def py_int (q : ℚ) : Int :=
  if q < 0 then -(⌊-q⌋) else ⌊q⌋

/-- The alpha assignment of `_update` while transitioning (src lines 317-322):
`self.alpha = int(255 * (1 - eased))`, with the eased float
`(1 - cos(progress·π)) / 2` abstracted as an exact rational sample. -/
def update_alpha (eased : ℚ) : Int :=
  py_int (255 * (1 - eased))

/-- Embedding of `_draw` (src lines 327-338): the current slide is drawn at
`self.alpha` while transitioning (255 otherwise) and, while transitioning, the
next slide is drawn at `255 - self.alpha`. -/
def draw (s : SlideshowState) : List (Layer × Int) :=
  (match s.current_slide with
   | some c => draw_slide c (if s.transitioning then s.alpha else 255)
   | none => []) ++
  (if s.transitioning then
     match s.next_slide with
     | some n => draw_slide n (255 - s.alpha)
     | none => []
   else [])

/-- Exit status of the process on the runtime-exhaustion path: `run` (src
lines 254-262) leaves its loop when `running` is false, calls `pygame.quit()`,
and the top-level script (src lines 363-365) then ends without `sys.exit`, so
the interpreter exits with status 0. -/
def run_loop_exit_code : Nat := 0

/-- Embedding of `__init__` (src lines 156-182) after `scan_photos`: index 0,
first slide loaded synchronously, then one preload spawned for
`_next_index()`. -/
def initState (ok : FilePath → Bool) (paths : List FilePath) : SlideshowState :=
  let s0 : SlideshowState :=
    { paths := paths
      index := 0
      paused := false
      running := true
      transitioning := false
      current_slide := none
      next_slide := none
      alpha := 255
      preloaded := none }
  match load_slideS ok s0 s0.index with
  | (cur, s1) =>
    let s2 := { s1 with current_slide := cur }
    start_preload ok s2 (next_index s2)

/-- One forward advance as claim C8 words it: a `_begin_transition` to the
next index followed by its `_finish_transition`. -/
def forward_advance (ok : FilePath → Bool) (s : SlideshowState) :
    Option SlideshowState :=
  finish_transition (begin_transition ok s (next_index s))

/-- K forward advances in sequence. -/
def advanceK (ok : FilePath → Bool) : Nat → SlideshowState → Option SlideshowState
  | 0, s => some s
  | k + 1, s =>
    match forward_advance ok s with
    | none => none
    | some s1 => advanceK ok k s1

/-- The index bound the spec states as an invariant: whenever the catalog is
non-empty, `0 <= index < len(paths)` (the lower bound is inherent to `Nat`). -/
def index_invariant (s : SlideshowState) : Prop :=
  s.paths ≠ [] → s.index < s.paths.length

instance (s : SlideshowState) : Decidable (index_invariant s) := by
  unfold index_invariant; infer_instance

/-!
Interleaved model of the preload handoff.  The main loop spawns daemon threads
(`_start_preload`, src lines 199-205); each thread's body is

    if idx < len(self.paths): self._preloaded = self._load_slide(idx)

with `idx` captured at spawn time, and may execute at any later point of the
schedule.  `pending` records spawned-but-not-yet-run bodies by their captured
index; `runWorker` executes one of them against the shared state it sees at
that moment.  The source contains no generation tag, cancellation signal or
staleness check, so the body is embedded exactly as written.
-/

/-- Shared state crossed by the preload thread boundary: the catalog
`self.paths`, the slot `self._preloaded`, and the captured indices of spawned
thread bodies that have not yet run. -/
structure PreloadSys where
  paths : List FilePath
  slot : Option Slide
  pending : List Nat
deriving DecidableEq, Repr

/-- The main-loop side of issuing a preload request, as `_begin_transition`
does it (src lines 242-244): clear the slot (`self._preloaded = None`), then
spawn a thread whose body captured `idx`. -/
def issuePreload (sys : PreloadSys) (idx : Nat) : PreloadSys :=
  { sys with slot := none, pending := sys.pending ++ [idx] }

/-- Execute the body of a spawned preload thread that captured `idx`
(src lines 200-202): re-check `idx < len(self.paths)` against the catalog as
it is now, run `self._load_slide(idx)` — which pops the entry on decode
failure — and write the result into the slot unconditionally. -/
def runWorker (ok : FilePath → Bool) (sys : PreloadSys) (idx : Nat) : PreloadSys :=
  if idx < sys.paths.length then
    match load_slide ok sys.paths idx with
    | (r, ps) => { paths := ps, slot := r, pending := sys.pending.erase idx }
  else
    { sys with pending := sys.pending.erase idx }

/-!
Concrete fixtures used by counterexamples and witnesses.
-/

/-- A concrete image path. -/
def pA : FilePath := { stem := "a", suffix := ".jpg" }

/-- A concrete image path. -/
def pB : FilePath := { stem := "b", suffix := ".jpg" }

/-- A concrete image path. -/
def pC : FilePath := { stem := "c", suffix := ".jpg" }

/-- Decode oracle under which every image decodes. -/
def ok_all : FilePath → Bool := fun _ => true

/-- Decode oracle under which exactly `pA` fails to decode. -/
def ok_not_a : FilePath → Bool := fun p => decide (p ≠ pA)

/-- Shared handoff state before any request: catalog `[pA, pB, pC]`, empty
slot, no pending thread. -/
def c1_sys0 : PreloadSys := { paths := [pA, pB, pC], slot := none, pending := [] }

/-- A slideshow state in which the slot still holds the slide preloaded for
what used to be index 2 (`pC`), while the catalog has since shrunk to
`[pB, pC]` and the expected index 0 now names `pB`.  Reachable: with catalog
`[pA, pB, pC]` at index 1 and `pC` preloaded, a LEFT-arrow `_advance(-1)`
targets index 0; `pA` fails to decode and is popped, and the recursive
`_begin_transition(0)` then finds `0 == _next_index()` and consumes the
slot. -/
def c2_state : SlideshowState :=
  { paths := [pB, pC]
    index := 1
    paused := false
    running := true
    transitioning := false
    current_slide := some (Slide.init pB)
    next_slide := none
    alpha := 255
    preloaded := some (Slide.init pC) }

/-- Handoff state with one pending preload thread for index 0 over catalog
`[pA, pB]`. -/
def c3_sys : PreloadSys := { paths := [pA, pB], slot := none, pending := [0] }

/-- C1, counterexample.  Trace: request for index 1 is issued, then — before
it runs — a second request for index 2 is issued (superseding the first); the
second body runs and stores the slide for `pC`; then the superseded first body
runs and overwrites the slot with the slide for `pB`.  The slot ends up
holding the slide produced by the superseded request, not one produced by the
most recently issued request. -/
theorem C1_counterexample :
    (issuePreload (issuePreload c1_sys0 1) 2).pending = [1, 2] ∧
    (runWorker ok_all (runWorker ok_all (issuePreload (issuePreload c1_sys0 1) 2) 2) 1).slot
      = some (Slide.init pB) ∧
    Slide.init pB ≠ Slide.init pC := by decide

/-- C1, amended: the preload thread body writes its result into the slot
unconditionally whenever its captured index is still in range and the image
decodes, regardless of the pending list — in particular even when the request
has been superseded by a later one.  The source has no staleness tag or
discard. -/
theorem C1_amended (ok : FilePath → Bool) (sys : PreloadSys) (idx : Nat) (p : FilePath)
    (h1 : sys.paths[idx]? = some p) (h2 : ok p = true) :
    (runWorker ok sys idx).slot = some (Slide.init p) := by
  have hlt : idx < sys.paths.length := by
    by_contra hge
    rw [List.getElem?_eq_none (Nat.le_of_not_lt hge)] at h1
    exact Option.noConfusion h1
  simp [runWorker, load_slide, hlt, h1, h2]

/-- Witness for `C1_amended` at a concrete superseded request. -/
theorem C1_amended_witness :
    (runWorker ok_all { paths := [pA, pB], slot := none, pending := [1, 0] } 0).slot
      = some (Slide.init pA) :=
  C1_amended ok_all { paths := [pA, pB], slot := none, pending := [1, 0] } 0 pA rfl rfl

/-- C2, counterexample.  A call to the consume operation with
`expected_idx = 0` (which names `pB`) returns the slide in the slot — loaded
for `pC` — instead of falling back to a synchronous load of index 0: the
source compares nothing against `expected_idx`. -/
theorem C2_counterexample :
    (get_preloaded ok_all c2_state 0).1 = some (Slide.init pC) ∧
    c2_state.paths[0]? = some pB ∧
    (Slide.init pC).path ≠ pB := by decide

/-- C2, amended: `_get_preloaded` returns whatever slide the slot holds
whenever the slot is non-empty, for every expected index, without any index
comparison; the synchronous fallback happens only when the slot is empty. -/
theorem C2_amended (ok : FilePath → Bool) (s : SlideshowState) (e : Nat) (sl : Slide)
    (h : s.preloaded = some sl) :
    get_preloaded ok s e = (some sl, s) := by
  unfold get_preloaded
  rw [h]

/-- Witness for `C2_amended` at a mismatched expected index. -/
theorem C2_amended_witness :
    get_preloaded ok_all c2_state 0 = (some (Slide.init pC), c2_state) :=
  C2_amended ok_all c2_state 0 (Slide.init pC) rfl

/-- C3, counterexample.  A background preload task whose image fails to decode
pops the entry from the shared catalog from inside the thread: the catalog is
not left unchanged by the task. -/
theorem C3_counterexample :
    (runWorker ok_not_a c3_sys 0).paths = [pB] ∧
    (runWorker ok_not_a c3_sys 0).paths ≠ c3_sys.paths := by decide

/-- C3, amended: the background preload task leaves the catalog unchanged
exactly when the preloaded image decodes successfully; on decode failure the
task itself removes the failing entry (`self.paths.pop(idx)` runs on the
worker thread). -/
theorem C3_amended (ok : FilePath → Bool) (sys : PreloadSys) (idx : Nat) (p : FilePath)
    (h1 : sys.paths[idx]? = some p) :
    (runWorker ok sys idx).paths =
      if ok p then sys.paths else sys.paths.eraseIdx idx := by
  have hlt : idx < sys.paths.length := by
    by_contra hge
    rw [List.getElem?_eq_none (Nat.le_of_not_lt hge)] at h1
    exact Option.noConfusion h1
  by_cases hok : ok p
  · simp [runWorker, load_slide, hlt, h1, hok]
  · simp [runWorker, load_slide, hlt, h1, hok]

/-- Witness for `C3_amended` at a failing decode. -/
theorem C3_amended_witness :
    (runWorker ok_not_a c3_sys 0).paths =
      if ok_not_a pA then c3_sys.paths else c3_sys.paths.eraseIdx 0 :=
  C3_amended ok_not_a c3_sys 0 pA rfl

/-- A non-image file entry. -/
def pTxt : FilePath := { stem := "notes", suffix := ".txt" }

/-- The supported-extension set of the default `Config` (src lines 21-23). -/
def supported0 : List String := [".jpg", ".jpeg", ".png", ".gif", ".bmp", ".webp"]

/-- State after every catalog entry has been removed at runtime. -/
def c4_state : SlideshowState :=
  { paths := []
    index := 0
    paused := false
    running := true
    transitioning := false
    current_slide := none
    next_slide := none
    alpha := 255
    preloaded := none }

/-- C4, counterexample.  In the third claimed situation — the catalog becomes
empty during operation — `_begin_transition` merely clears the running flag;
`run` then leaves its loop, `pygame.quit()` runs, and the script ends without
`sys.exit`, so the process exit status is 0, not nonzero. -/
theorem C4_counterexample :
    begin_transition ok_all c4_state 0 = { c4_state with running := false } ∧
    run_loop_exit_code = 0 := by decide

/-- C4, amended: the process exits nonzero in exactly the two startup
situations (photos directory missing; no supported images found), via
`sys.exit(1)` in `scan_photos`; when the catalog becomes empty during
operation the running flag is cleared, the loop exits cleanly, and the process
exit status is 0. -/
theorem C4_amended (entries : List FilePath) (supported : List String)
    (ok : FilePath → Bool) (s : SlideshowState) (t : Nat)
    (hfilter : entries.filter (fun p => supported.contains (py_lower p.suffix)) = [])
    (hs : s.transitioning = false) (hp : s.paths = []) :
    scan_photos false entries supported = Except.error 1 ∧
    scan_photos true entries supported = Except.error 1 ∧
    begin_transition ok s t = { s with running := false } ∧
    run_loop_exit_code = 0 := by
  refine ⟨rfl, ?_, ?_, rfl⟩
  · unfold scan_photos
    simp only [hfilter]
    rfl
  · simp [begin_transition, beginGo, hs, hp]

/-- Witness for `C4_amended` at the two startup failures and a concrete
exhausted runtime state. -/
theorem C4_amended_witness :
    scan_photos false [pTxt] supported0 = Except.error 1 ∧
    scan_photos true [pTxt] supported0 = Except.error 1 ∧
    begin_transition ok_all c4_state 0 = { c4_state with running := false } ∧
    run_loop_exit_code = 0 :=
  C4_amended [pTxt] supported0 ok_all c4_state 0 (by decide) rfl rfl

/-- Evaluation of `finish_transition` when no next slide is staged. -/
theorem finish_transition_of_none (s : SlideshowState) (h : s.next_slide = none) :
    finish_transition s = none := by
  unfold finish_transition
  rw [h]

/-- Evaluation of `finish_transition` when the committed slide's path sits at
position `i` of the catalog. -/
theorem finish_transition_eq (s : SlideshowState) (sl : Slide) (i : Nat)
    (hns : s.next_slide = some sl) (hi : py_list_index sl.path s.paths = some i) :
    finish_transition s =
      some { s with
        current_slide := some sl
        next_slide := none
        transitioning := false
        alpha := 255
        index := i } := by
  unfold finish_transition
  rw [hns]
  show (match py_list_index sl.path s.paths with
        | none => none
        | some i =>
          some { s with
            current_slide := some sl
            next_slide := none
            transitioning := false
            alpha := 255
            index := i }) = _
  rw [hi]

/-- Evaluation of `finish_transition` when the committed slide's path is no
longer in the catalog (Python raises `ValueError`). -/
theorem finish_transition_absent (s : SlideshowState) (sl : Slide)
    (hns : s.next_slide = some sl) (hi : py_list_index sl.path s.paths = none) :
    finish_transition s = none := by
  unfold finish_transition
  rw [hns]
  show (match py_list_index sl.path s.paths with
        | none => none
        | some i =>
          some { s with
            current_slide := some sl
            next_slide := none
            transitioning := false
            alpha := 255
            index := i }) = _
  rw [hi]

/-- Position returned by `py_list_index` is a valid index. -/
theorem py_list_index_lt_length (x : FilePath) :
    ∀ (l : List FilePath) (i : Nat), py_list_index x l = some i → i < l.length := by
  intro l
  induction l with
  | nil => intro i h; exact absurd h (by simp [py_list_index])
  | cons p rest ih =>
    intro i h
    unfold py_list_index at h
    by_cases hp : p = x
    · rw [if_pos hp] at h
      cases h
      simp
    · rw [if_neg hp] at h
      cases hrec : py_list_index x rest with
      | none => rw [hrec] at h; simp at h
      | some j =>
        rw [hrec] at h
        simp only [Option.map_some'] at h
        cases h
        have := ih j hrec
        simp
        omega

/-- State with `index = 1` over the two-entry catalog `[pA, pB]`; the bound
`0 <= index < len(paths)` holds. -/
def c5_state : SlideshowState :=
  { paths := [pA, pB]
    index := 1
    paused := false
    running := true
    transitioning := false
    current_slide := some (Slide.init pB)
    next_slide := none
    alpha := 255
    preloaded := none }

/-- C5, counterexample.  A decode failure at index 0 pops `pA` but leaves
`self.index` untouched, so afterwards `index = 1 = len(paths)`: the removal
in `_load_slide` does not preserve the claimed bound.  Reachable: with
`current = pB` at index 1, an auto-advance targets index 0 and the synchronous
load of `pA` fails. -/
theorem C5_counterexample :
    index_invariant c5_state ∧
    (load_slideS ok_not_a c5_state 0).2.paths = [pB] ∧
    ¬ index_invariant (load_slideS ok_not_a c5_state 0).2 := by decide

/-- C5, amended: the bound is preserved by `_load_slide`'s removal whenever
`index + 1 < len(paths)` beforehand (the counterexample needs `index` at the
last position), and a successful `_finish_transition` always reestablishes
`index < len(paths)` by recomputing the index from the committed slide's
position. -/
theorem C5_amended (ok : FilePath → Bool) (s1 s1' s2 : SlideshowState) (idx : Nat)
    (hf : finish_transition s1 = some s1')
    (h2 : s2.index + 1 < s2.paths.length) :
    s1'.index < s1'.paths.length ∧
    (load_slideS ok s2 idx).2.index < (load_slideS ok s2 idx).2.paths.length := by
  constructor
  · cases hns : s1.next_slide with
    | none =>
      rw [finish_transition_of_none s1 hns] at hf
      exact Option.noConfusion hf
    | some sl =>
      cases hidx : py_list_index sl.path s1.paths with
      | none =>
        rw [finish_transition_absent s1 sl hns hidx] at hf
        exact Option.noConfusion hf
      | some i =>
        rw [finish_transition_eq s1 sl i hns hidx] at hf
        have h := Option.some.inj hf
        subst h
        simpa using py_list_index_lt_length sl.path s1.paths i hidx
  · unfold load_slideS load_slide
    cases hget : s2.paths[idx]? with
    | none => simpa using by omega
    | some p =>
      have hlt : idx < s2.paths.length := by
        by_contra hge
        rw [List.getElem?_eq_none (Nat.le_of_not_lt hge)] at hget
        exact Option.noConfusion hget
      by_cases hok : ok p
      · simp only [hget, hok, if_true]
        simpa using by omega
      · simp only [hget, hok, if_false]
        have hlen : (s2.paths.eraseIdx idx).length = s2.paths.length - 1 :=
          List.length_eraseIdx_of_lt hlt
        simp [hlen]
        omega

/-- An `Active` state over the one-entry catalog `[pA]`, mid-blend. -/
def c5_active : SlideshowState :=
  { paths := [pA]
    index := 0
    paused := false
    running := true
    transitioning := true
    current_slide := some (Slide.init pA)
    next_slide := some (Slide.init pA)
    alpha := 100
    preloaded := none }

/-- The state `_finish_transition` produces from `c5_active`. -/
def c5_done : SlideshowState :=
  { c5_active with
    current_slide := some (Slide.init pA)
    next_slide := none
    transitioning := false
    alpha := 255
    index := 0 }

/-- State with `index = 0` over `[pA, pB]`, strictly below the last position. -/
def c5_inbounds : SlideshowState := { c5_state with index := 0 }

/-- Witness for `C5_amended` at concrete states. -/
theorem C5_amended_witness :
    c5_done.index < c5_done.paths.length ∧
    (load_slideS ok_not_a c5_inbounds 0).2.index
      < (load_slideS ok_not_a c5_inbounds 0).2.paths.length :=
  C5_amended ok_not_a c5_active c5_done c5_inbounds 0 (by decide) (by decide)

/-- An `Idle` state: no transition in flight, `next_slide` is `None`. -/
def c6_idle : SlideshowState :=
  { paths := [pA]
    index := 0
    paused := false
    running := true
    transitioning := false
    current_slide := some (Slide.init pA)
    next_slide := none
    alpha := 255
    preloaded := none }

/-- C6, counterexample.  Calling `_finish_transition` while already `Idle` is
not a no-op: `self.current_slide` becomes `None` and the line
`self.paths.index(self.current_slide.path)` then raises `AttributeError`
(modelled as `none`), so the state is not left unchanged. -/
theorem C6_counterexample :
    finish_transition c6_idle = none ∧
    finish_transition c6_idle ≠ some c6_idle := by decide

/-- C6, amended: calling `_finish_transition` in any state with
`next_slide = None` (in particular while `Idle`) raises an exception instead
of being a no-op; the source avoids this by invoking it only while a
transition is active (`_advance` guards on `self.transitioning`, `_update`
calls it only inside `if self.transitioning`). -/
theorem C6_amended (s : SlideshowState) (h : s.next_slide = none) :
    finish_transition s = none := by
  unfold finish_transition
  rw [h]

/-- Witness for `C6_amended` at the concrete idle state. -/
theorem C6_amended_witness : finish_transition c6_idle = none :=
  C6_amended c6_idle rfl

/-- C7: the manual interrupt rule.  A navigation input arriving while a
transition is active first forces `_finish_transition` — committing the
in-flight next slide `sl` as current and discarding the remaining blend — and
then begins a new transition whose target is computed from the newly committed
index `j` (next index for forward, previous index for backward). -/
theorem C7_theorem (ok : FilePath → Bool) (s : SlideshowState) (d : Int) (sl : Slide) (j : Nat)
    (htr : s.transitioning = true) (hns : s.next_slide = some sl)
    (hj : py_list_index sl.path s.paths = some j) :
    advance ok s d =
      some (begin_transition ok
        { s with
          current_slide := some sl
          next_slide := none
          transitioning := false
          alpha := 255
          index := j }
        (if d > 0 then (j + 1) % s.paths.length
         else (j + (s.paths.length - 1)) % s.paths.length)) := by
  unfold advance
  rw [htr, if_pos rfl, finish_transition_eq s sl j hns hj]
  simp [next_index, prev_index]

/-- An `Active` A-to-B transition over `[pA, pB]`, current index 0. -/
def c7_active : SlideshowState :=
  { paths := [pA, pB]
    index := 0
    paused := false
    running := true
    transitioning := true
    current_slide := some (Slide.init pA)
    next_slide := some (Slide.init pB)
    alpha := 100
    preloaded := none }

/-- Witness for `C7_theorem`: a forward key press at mid-blend commits `pB`
(index 1) and begins a transition toward `(1 + 1) % 2 = 0`. -/
theorem C7_witness :
    advance ok_all c7_active 1 =
      some (begin_transition ok_all
        { c7_active with
          current_slide := some (Slide.init pB)
          next_slide := none
          transitioning := false
          alpha := 255
          index := 1 }
        (if (1 : Int) > 0 then (1 + 1) % c7_active.paths.length
         else (1 + (c7_active.paths.length - 1)) % c7_active.paths.length)) :=
  C7_theorem ok_all c7_active 1 (Slide.init pB) 1 rfl rfl (by decide)

/-- C9: alpha-blend symmetry.  At every tick of an Active transition whose
alpha was set by `_update`'s rule `int(255 * (1 - eased))`, `_draw` composites
the current slide at that alpha and the next slide at `255 - alpha`, so the
two alphas sum to exactly 255. -/
theorem C9_theorem (s : SlideshowState) (c n : Slide) (eased : ℚ)
    (htr : s.transitioning = true) (hc : s.current_slide = some c)
    (hn : s.next_slide = some n) (ha : s.alpha = update_alpha eased) :
    draw s = draw_slide c (update_alpha eased) ++ draw_slide n (255 - update_alpha eased) ∧
    update_alpha eased + (255 - update_alpha eased) = 255 := by
  constructor
  · simp [draw, hc, hn, htr, ha]
  · omega

/-- An `Active` state whose alpha was set by the update rule at full
progress. -/
def c9_state : SlideshowState := { c7_active with alpha := update_alpha 1 }

/-- Witness for `C9_theorem` at eased progress 1. -/
theorem C9_witness :
    draw c9_state =
      draw_slide (Slide.init pA) (update_alpha 1) ++
        draw_slide (Slide.init pB) (255 - update_alpha 1) ∧
    update_alpha 1 + (255 - update_alpha 1) = 255 :=
  C9_theorem c9_state (Slide.init pA) (Slide.init pB) 1 rfl rfl rfl rfl

/-- The caption text as the claim words it: the stem with the leading `$`
characters removed and every `_` and `-` replaced by a space, in one pass over
the characters. -/
def caption_spec (stem : String) : String :=
  String.mk ((stem.data.dropWhile (fun c => c == '$')).map
    (fun c => if c == '_' || c == '-' then ' ' else c))

/-- C10: the implicit caption convention.  A slide carries a caption layer iff
its file name starts with `$`; the caption text is the stem with leading `$`
stripped and `_`/`-` turned into spaces; and `_draw_slide` composites exactly
one caption layer for `$`-files and none otherwise. -/
theorem C10_theorem (p : FilePath) (a : Int) :
    ((Slide.init p).captionSurf ≠ none ↔ py_startswith '$' p.name = true) ∧
    (Slide.init p).caption = caption_spec p.stem ∧
    (draw_slide (Slide.init p) a).countP (fun la => la.1.isCaption) =
      (if py_startswith '$' p.name = true then 1 else 0) := by
  refine ⟨?_, ?_, ?_⟩
  · by_cases h : py_startswith '$' p.name
    · simp [Slide.init, h]
    · simp [Slide.init, h]
  · have hfun : ((fun c => if c == '-' then ' ' else c) ∘
        (fun c => if c == '_' then ' ' else c)) =
        (fun c : Char => if c == '_' || c == '-' then ' ' else c) := by
      funext c
      by_cases h1 : c = '_'
      · subst h1; decide
      · by_cases h2 : c = '-'
        · subst h2; decide
        · have b1 : (c == '_') = false := by simp [h1]
          have b2 : (c == '-') = false := by simp [h2]
          simp [Function.comp, b1, b2]
    show String.mk
        (((p.stem.data.dropWhile (fun c => c == '$')).map
            (fun c => if c == '_' then ' ' else c)).map
          (fun c => if c == '-' then ' ' else c)) =
      String.mk ((p.stem.data.dropWhile (fun c => c == '$')).map
        (fun c => if c == '_' || c == '-' then ' ' else c))
    rw [List.map_map, hfun]
  · by_cases h : py_startswith '$' p.name
    · simp [Slide.init, draw_slide, h, List.countP_cons, List.countP_nil, Layer.isCaption]
    · simp [Slide.init, draw_slide, h, List.countP_cons, List.countP_nil, Layer.isCaption]

/-- Over a duplicate-free catalog, `py_list_index` recovers the position a
path was read from. -/
theorem py_list_index_of_nodup :
    ∀ (l : List FilePath), l.Nodup → ∀ (j : Nat) (x : FilePath), l[j]? = some x →
      py_list_index x l = some j := by
  intro l
  induction l with
  | nil => intro _ j x h; simp at h
  | cons p rest ih =>
    intro hnd j x h
    rw [List.nodup_cons] at hnd
    cases j with
    | zero =>
      rw [List.getElem?_cons_zero] at h
      have hx := Option.some.inj h
      unfold py_list_index
      rw [if_pos hx]
    | succ j =>
      rw [List.getElem?_cons_succ] at h
      have hx : x ∈ rest := by
        have := List.getElem?_eq_some.mp h
        obtain ⟨hlt, hget⟩ := this
        exact hget ▸ List.getElem_mem hlt
      have hpx : p ≠ x := fun he => hnd.1 (he ▸ hx)
      unfold py_list_index
      rw [if_neg hpx, ih hnd.2 j x h]
      rfl

/-- The loop invariant behind claim C8: after committing position `i`, the
catalog is untouched, the engine is idle at index `i`, and the slot holds the
slide preloaded for the following position. -/
def C8Inv (paths : List FilePath) (i : Nat) (s : SlideshowState) : Prop :=
  s.paths = paths ∧ s.index = i ∧ s.transitioning = false ∧
    s.preloaded = (paths[(i + 1) % paths.length]?).map Slide.init

/-- One forward advance with no decode failures moves the invariant from
position `i` to position `(i + 1) % N`. -/
theorem forward_advance_inv (ok : FilePath → Bool) (paths : List FilePath)
    (hok : ∀ p, ok p = true) (hN : 0 < paths.length) (hnd : paths.Nodup)
    (i : Nat) (s : SlideshowState) (hInv : C8Inv paths i s) :
    ∃ s', forward_advance ok s = some s' ∧
      C8Inv paths ((i + 1) % paths.length) s' := by
  obtain ⟨hp, hix, htr, hpre⟩ := hInv
  have hi1 : (i + 1) % paths.length < paths.length := Nat.mod_lt _ hN
  obtain ⟨q, hq⟩ : ∃ q, paths[(i + 1) % paths.length]? = some q :=
    ⟨_, List.getElem?_eq_getElem hi1⟩
  have hi2 : ((i + 1) % paths.length + 1) % paths.length < paths.length :=
    Nat.mod_lt _ hN
  obtain ⟨r, hr⟩ : ∃ r, paths[((i + 1) % paths.length + 1) % paths.length]? = some r :=
    ⟨_, List.getElem?_eq_getElem hi2⟩
  have hpre' : s.preloaded = some (Slide.init q) := by rw [hpre, hq]; rfl
  have hnext : next_index s = (i + 1) % paths.length := by
    simp [next_index, hp, hix]
  have hN0 : paths.length ≠ 0 := Nat.pos_iff_ne_zero.mp hN
  have hmod : (i + 1) % paths.length % paths.length = (i + 1) % paths.length :=
    Nat.mod_mod_of_dvd _ dvd_rfl
  have hB : get_preloaded ok s ((i + 1) % paths.length) = (some (Slide.init q), s) := by
    unfold get_preloaded
    rw [hpre']
  have hbegin : begin_transition ok s ((i + 1) % paths.length) =
      { s with
        paths := paths
        next_slide := some (Slide.init q)
        transitioning := true
        alpha := 255
        preloaded := some (Slide.init r) } := by
    unfold begin_transition
    simp only [hp, beginGo, htr, Bool.false_eq_true, if_false, hN0, ite_false, hmod,
      hnext, ite_true, hB, hi2, start_preload, load_slideS, load_slide, hr, hok,
      if_true, if_pos hi2]
  have hpli : py_list_index (Slide.init q).path paths = some ((i + 1) % paths.length) := by
    show py_list_index q paths = _
    exact py_list_index_of_nodup paths hnd _ q hq
  refine ⟨{ s with
      paths := paths
      current_slide := some (Slide.init q)
      next_slide := none
      transitioning := false
      alpha := 255
      index := (i + 1) % paths.length
      preloaded := some (Slide.init r) }, ?_, ?_⟩
  · unfold forward_advance
    rw [hnext, hbegin,
      finish_transition_eq _ (Slide.init q) ((i + 1) % paths.length) rfl hpli]
  · refine ⟨rfl, rfl, rfl, ?_⟩
    show some (Slide.init r) = _
    rw [hr]
    rfl

/-- K forward advances with no decode failures move the invariant from
position `i` to position `(i + K) % N`. -/
theorem advanceK_inv (ok : FilePath → Bool) (paths : List FilePath)
    (hok : ∀ p, ok p = true) (hN : 0 < paths.length) (hnd : paths.Nodup) :
    ∀ (K i : Nat) (s : SlideshowState), i < paths.length → C8Inv paths i s →
      ∃ s', advanceK ok K s = some s' ∧ C8Inv paths ((i + K) % paths.length) s' := by
  intro K
  induction K with
  | zero =>
    intro i s hi hInv
    refine ⟨s, rfl, ?_⟩
    rw [Nat.add_zero, Nat.mod_eq_of_lt hi]
    exact hInv
  | succ K ih =>
    intro i s hi hInv
    obtain ⟨s1, hstep, hInv1⟩ := forward_advance_inv ok paths hok hN hnd i s hInv
    obtain ⟨s', hrest, hInv'⟩ := ih ((i + 1) % paths.length) s1 (Nat.mod_lt _ hN) hInv1
    refine ⟨s', ?_, ?_⟩
    · show (match forward_advance ok s with
            | none => none
            | some s1 => advanceK ok K s1) = some s'
      rw [hstep]
      exact hrest
    · rw [Nat.mod_add_mod, show i + 1 + K = i + (K + 1) from by omega] at hInv'
      exact hInv'

/-- The freshly initialised slideshow satisfies the C8 invariant at index 0
when every image decodes. -/
theorem initState_inv (ok : FilePath → Bool) (paths : List FilePath)
    (hok : ∀ p, ok p = true) (hN : 0 < paths.length) :
    C8Inv paths 0 (initState ok paths) := by
  obtain ⟨p0, hp0⟩ : ∃ p0, paths[0]? = some p0 := ⟨_, List.getElem?_eq_getElem hN⟩
  have hi1 : (0 + 1) % paths.length < paths.length := Nat.mod_lt _ hN
  obtain ⟨p1, hp1⟩ : ∃ p1, paths[(0 + 1) % paths.length]? = some p1 :=
    ⟨_, List.getElem?_eq_getElem hi1⟩
  unfold initState
  simp only [load_slideS, load_slide, hp0, hok, if_true, next_index, start_preload,
    hi1, hp1, ite_true]
  exact ⟨rfl, rfl, rfl, by rw [hp1]; rfl⟩

/-- C8: starting from the freshly initialised slideshow over a duplicate-free
catalog of `N` entries, performing `K` forward advances — each a
`_begin_transition` to the next index followed by its `_finish_transition` —
with no decode failures leaves the engine at index `K mod N`. -/
theorem C8_theorem (ok : FilePath → Bool) (paths : List FilePath) (K : Nat)
    (hok : ∀ p, ok p = true) (hN : 0 < paths.length) (hnd : paths.Nodup) :
    (advanceK ok K (initState ok paths)).map SlideshowState.index =
      some (K % paths.length) := by
  obtain ⟨s', h1, hInv⟩ :=
    advanceK_inv ok paths hok hN hnd K 0 (initState ok paths) hN
      (initState_inv ok paths hok hN)
  rw [h1]
  obtain ⟨_, hix, _, _⟩ := hInv
  simp [hix]

/-- Witness for `C8_theorem`: four forward advances over `[pA, pB, pC]` leave
the engine at index `4 mod 3 = 1`. -/
theorem C8_witness :
    (advanceK ok_all 4 (initState ok_all [pA, pB, pC])).map SlideshowState.index
      = some 1 :=
  C8_theorem ok_all [pA, pB, pC] 4 (fun _ => rfl) (by decide) (by decide)
